import Mathlib

/-
Verification of the Traffic Tracker service (src/main.py) against its
natural-language specification. The three request handlers, the request/response
models and the filter/normalization logic are embedded shallowly below; the
document-store adapter (database.py) and the TrafficEvent schema (schemas.py)
are not part of the sources and are modelled from the spec where noted.
-/

namespace Traffic

/-- Dynamic (Python-like) value stored in a document field. -/
inductive Value where
  | vNone : Value
  | vStr : String → Value
  | vInt : Int → Value
  | vBool : Bool → Value
  | vId : Nat → Value
  deriving DecidableEq

/-- Python truthiness of a value. -/
def Value.truthy : Value → Bool
  | .vNone => false
  | .vStr s => !s.isEmpty
  | .vInt n => n != 0
  | .vBool b => b
  | .vId _ => true

/-- Python str() rendering of a value (None renders as the text "None"). -/
def Value.pyStr : Value → String
  | .vNone => "None"
  | .vStr s => s
  | .vInt n => toString n
  | .vBool b => cond b "True" "False"
  | .vId n => "ObjectId(" ++ toString n ++ ")"

/-- Whether a value is a string. -/
def Value.isStr : Value → Bool
  | .vStr _ => true
  | _ => false

/-- A stored document: an insertion-ordered dictionary from field names to values. -/
abbrev Doc := List (String × Value)

/-- Dictionary read: first binding of the key, if any. -/
def Doc.get : Doc → String → Option Value
  | [], _ => none
  | (k, v) :: rest, key => if k = key then some v else Doc.get rest key

/-- Dictionary write: replace the key's binding in place, or append it. -/
def Doc.set : Doc → String → Value → Doc
  | [], key, v => [(key, v)]
  | (k, w) :: rest, key, v =>
      if k = key then (key, v) :: rest else (k, w) :: Doc.set rest key v

/-- dict.get with Python's None default. -/
def Doc.getPy (d : Doc) (key : String) : Value := (Doc.get d key).getD .vNone

/-- Python truthiness of an optional string (None and "" are falsy). -/
def optTruthy : Option String → Bool
  | none => false
  | some s => !s.isEmpty

/-- An optional string as a stored value (Python None becomes a null value). -/
def optVal : Option String → Value
  | none => .vNone
  | some s => .vStr s

/-- Modelled from the spec: the `TrafficEvent` schema from `schemas.py`, which is
imported by `main.py` but is not among the sources. Fields follow the spec's data
model: required `path`, `event`, optional `source`, `user_agent` and `ip`; the
identifier and timestamps are assigned by the store layer. -/
structure TrafficEvent where
  path : String
  event : String
  source : Option String
  user_agent : Option String
  ip : Option String
  deriving DecidableEq

/-- The document handed to the store for a traffic event. -/
def TrafficEvent.toDoc (e : TrafficEvent) : Doc :=
  [("path", .vStr e.path), ("event", .vStr e.event), ("source", optVal e.source),
   ("user_agent", optVal e.user_agent), ("ip", optVal e.ip)]

/-- State of the store's single `trafficevent` collection, together with the
adapter's health: when `fault` is set, adapter calls raise that message. -/
structure Store where
  events : List Doc
  nextId : Nat
  fault : Option String
  deriving DecidableEq

/-- Modelled from the spec: `create_document` from `database.py` (not among the
sources). Per the adapter contract, `insert(collection, document) -> id` appends
exactly one document, assigning a fresh identifier returned as a string; a
store-write failure raises and persists nothing (atomic from the caller's view). -/
def create_document (_collection : String) (e : TrafficEvent) (s : Store) :
    Except String (String × Store) :=
  match s.fault with
  | some m => .error m
  | none =>
      .ok (toString s.nextId,
        { events := s.events ++ [Doc.set e.toDoc "_id" (.vId s.nextId)],
          nextId := s.nextId + 1, fault := none })

/-- A document matches an equality filter when every filter key holds the given
string value. -/
def matchesFilter (d : Doc) (filt : List (String × String)) : Bool :=
  filt.all fun kv => Doc.get d kv.1 == some (.vStr kv.2)

/-- Modelled from the spec: `get_documents` from `database.py` (not among the
sources). Per the adapter contract, `find(collection, filter, limit)` returns at
most `limit` matching documents in stored order; a store-read failure raises. -/
def get_documents (_collection : String) (filt : List (String × String))
    (limit : Int) (s : Store) : Except String (List Doc) :=
  match s.fault with
  | some m => .error m
  | none => .ok ((s.events.filter (matchesFilter · filt)).take limit.toNat)

/-- Observable state of the global `db` handle for the diagnostics endpoint:
its `name` attribute and the outcome of `list_collection_names()`. -/
structure DBHandle where
  name : Option String
  listCollections : Except String (List String)

/-- Environment sampled by `test_database`: the global `db` handle (possibly
None), the DATABASE_URL environment variable, and a slot for any other exception
raised inside the handler body, caught by its outer except clause. -/
structure HealthEnv where
  db : Option DBHandle
  databaseUrl : Option String
  unexpected : Option String

/-- The diagnostics report returned by GET /test (main.py lines 26-33). -/
structure HealthReport where
  backend : String
  database : String
  database_url : Option String
  database_name : Option String
  connection_status : String
  collections : List String
  deriving DecidableEq

/-- The response dictionary as first initialized (main.py lines 26-33). -/
def initialReport : HealthReport :=
  { backend := "✅ Running", database := "❌ Not Available", database_url := none,
    database_name := none, connection_status := "Not Connected", collections := [] }

/-- Python `getattr(db, 'name', None) or "Unknown"`. -/
def orUnknown : Option String → String
  | none => "Unknown"
  | some s => if s.isEmpty then "Unknown" else s

/-- Body of `test_database` before its outer except clause (main.py lines 34-46);
an error value models an exception escaping the body. -/
def test_database_body (env : HealthEnv) : Except String HealthReport :=
  match env.unexpected with
  | some e => .error e
  | none =>
      match env.db with
      | none => .ok { initialReport with database := "⚠️ Available but not initialized" }
      | some h =>
          let r := { initialReport with
            database := "✅ Available",
            database_url := some (if optTruthy env.databaseUrl then "✅ Set" else "❌ Not Set"),
            database_name := some (orUnknown h.name),
            connection_status := "Connected" }
          match h.listCollections with
          | .ok cols =>
              .ok { r with collections := cols.take 10,
                           database := "✅ Connected & Working" }
          | .error e =>
              .ok { r with database := "⚠️ Connected but Error: " ++ e.take 80 }

/-- GET /test handler (main.py lines 23-49): the outer except clause renders any
escaped exception as a status string, so no error propagates. -/
def test_database (env : HealthEnv) : Except String HealthReport :=
  match test_database_body env with
  | .ok r => .ok r
  | .error e => .ok { initialReport with database := "❌ Error: " ++ e.take 80 }

/-- Request body of POST /api/track as received, before validation; `none` marks
an absent field. -/
structure RawBody where
  path : Option String
  event : Option String
  source : Option String
  deriving DecidableEq

/-- The validated body model `TrackEventIn` (main.py lines 52-55): `path: str`
required, `event: str = "view"`, `source: Optional[str] = None`. -/
structure TrackEventIn where
  path : String
  event : String
  source : Option String
  deriving DecidableEq

/-- Pydantic validation of the request body: `path` is required (no emptiness
constraint), `event` defaults to "view", `source` defaults to None. -/
def validateTrackEventIn (b : RawBody) : Except String TrackEventIn :=
  match b.path with
  | none => .error "Field required: path"
  | some p => .ok { path := p, event := b.event.getD "view", source := b.source }

/-- Request metadata read by the ingestion handler: the X-Forwarded-For and
User-Agent headers, and the transport-level client address if any. -/
structure RequestMeta where
  xForwardedFor : Option String
  userAgent : Option String
  clientHost : Option String
  deriving DecidableEq

/-- Response of POST /api/track: 200 with an id, 422 from body validation, or an
HTTPException rendered as status 500 with a detail message. -/
inductive TrackResponse where
  | ok : String → TrackResponse
  | validationError : String → TrackResponse
  | serverError : String → TrackResponse
  deriving DecidableEq

/-- POST /api/track handler body (main.py lines 60-76). -/
def track_event (payload : TrackEventIn) (req : RequestMeta) (s : Store) :
    TrackResponse × Store :=
  let ip : Option String :=
    match req.xForwardedFor with
    | some v => some v
    | none => req.clientHost
  let ua := req.userAgent
  let evt : TrafficEvent :=
    { path := payload.path, source := payload.source, event := payload.event,
      user_agent := ua, ip := ip }
  match create_document "trafficevent" evt s with
  | .ok (inserted_id, s2) => (.ok inserted_id, s2)
  | .error e => (.serverError e, s)

/-- Full POST /api/track endpoint: framework body validation, then the handler. -/
def track_endpoint (raw : RawBody) (req : RequestMeta) (s : Store) :
    TrackResponse × Store :=
  match validateTrackEventIn raw with
  | .error e => (.validationError e, s)
  | .ok payload => track_event payload req s

/-- The document persisted for a validated request, identifier included. -/
def trackedDoc (payload : TrackEventIn) (req : RequestMeta) (n : Nat) : Doc :=
  Doc.set (TrafficEvent.toDoc
    { path := payload.path, source := payload.source, event := payload.event,
      user_agent := req.userAgent,
      ip := match req.xForwardedFor with
            | some v => some v
            | none => req.clientHost }) "_id" (.vId n)

/-- Response of GET /api/stats: 200 with items, or 500 with a detail message. -/
inductive StatsResponse where
  | ok : List Doc → StatsResponse
  | serverError : String → StatsResponse
  deriving DecidableEq

/-- Filter construction in get_stats (main.py lines 82-86): Python `if path:` and
`if event:` test truthiness. -/
def buildFilter (path event : Option String) : List (String × String) :=
  let filt : List (String × String) := []
  let filt := if optTruthy path then filt ++ [("path", path.getD "")] else filt
  let filt := if optTruthy event then filt ++ [("event", event.getD "")] else filt
  filt

/-- One guarded timestamp conversion in get_stats (main.py lines 92-95): convert
the field to its str() rendering only when its current value is truthy. -/
def convertField (d : Doc) (k : String) : Doc :=
  if (Doc.getPy d k).truthy then Doc.set d k (.vStr (Doc.getPy d k).pyStr) else d

/-- Normalization of one returned document (main.py lines 91-95). -/
def normalizeDoc (d : Doc) : Doc :=
  let d1 := Doc.set d "_id" (.vStr (Doc.getPy d "_id").pyStr)
  convertField (convertField d1 "created_at") "updated_at"

/-- GET /api/stats handler (main.py lines 78-99); the read does not modify the
store. -/
def get_stats (path event : Option String) (limit : Int) (s : Store) :
    StatsResponse :=
  match get_documents "trafficevent" (buildFilter path event) limit s with
  | .ok docs => .ok (docs.map normalizeDoc)
  | .error e => .serverError e

/-- GET /api/stats endpoint with the framework default `limit: int = 50` applied
when the query parameter is omitted. -/
def stats_endpoint (path event : Option String) (limit : Option Int) (s : Store) :
    StatsResponse :=
  get_stats path event (limit.getD 50) s

/-- One API call against the service. -/
inductive Op where
  | track : RawBody → RequestMeta → Op
  | stats : Option String → Option String → Option Int → Op
  | health : HealthEnv → Op

/-- The store after one API call: only tracking writes; the stats and diagnostics
handlers only read. -/
def applyOp (s : Store) : Op → Store
  | .track raw req => (track_endpoint raw req s).2
  | .stats _ _ _ => s
  | .health _ => s

/-- The stats read as a state transformer: its result, and the store it leaves
behind. -/
def runStats (path event : Option String) (limit : Int) (s : Store) :
    StatsResponse × Store :=
  (get_stats path event limit s, s)

/-- The document persisted by the C5 witness request. -/
def wDoc : Doc :=
  [("path", .vStr "/h"), ("event", .vStr "view"), ("source", .vNone),
   ("user_agent", .vStr "UA"), ("ip", .vStr "1.2.3.4"), ("_id", .vId 0)]

/-- A store holding two events, used by the C7 witness. -/
def statsStore : Store :=
  ⟨[[("path", .vStr "/a")], [("path", .vStr "/b")]], 2, none⟩

theorem doc_get_set_same (d : Doc) (k : String) (v : Value) :
    Doc.get (Doc.set d k v) k = some v := by
  induction d with
  | nil => simp [Doc.set, Doc.get]
  | cons hd tl ih =>
      obtain ⟨k1, v1⟩ := hd
      by_cases h : k1 = k
      · simp [Doc.set, Doc.get, h]
      · simp [Doc.set, Doc.get, h, ih]

theorem doc_get_set_ne (d : Doc) (k1 k2 : String) (v : Value) (h : k1 ≠ k2) :
    Doc.get (Doc.set d k1 v) k2 = Doc.get d k2 := by
  induction d with
  | nil => simp [Doc.set, Doc.get, h]
  | cons hd tl ih =>
      obtain ⟨ka, va⟩ := hd
      by_cases hk : ka = k1
      · subst hk
        simp [Doc.set, Doc.get, h]
      · simp [Doc.set, Doc.get, hk, ih]

theorem convert_get_of_ne (d : Doc) (k k2 : String) (h : k ≠ k2) :
    Doc.get (convertField d k) k2 = Doc.get d k2 := by
  unfold convertField
  by_cases ht : (Doc.getPy d k).truthy
  · simp [ht, doc_get_set_ne _ _ _ _ h]
  · simp [ht]

theorem doc_getPy_eq (d : Doc) (k : String) (v : Value)
    (hget : Doc.get d k = some v) : Doc.getPy d k = v := by
  simp [Doc.getPy, hget]

theorem convert_get_truthy (d : Doc) (k : String) (v : Value)
    (hget : Doc.get d k = some v) (hv : v.truthy = true) :
    Doc.get (convertField d k) k = some (.vStr v.pyStr) := by
  have hpy : Doc.getPy d k = v := by simp [Doc.getPy, hget]
  simp [convertField, hpy, hv, doc_get_set_same]

theorem convert_get_falsy (d : Doc) (k : String)
    (hv : (Doc.getPy d k).truthy = false) : convertField d k = d := by
  simp [convertField, hv]

/-- Claim C1: the spec requires that a track request with an empty or missing
`path` be rejected with a validation error and never persisted. The code rejects
a missing `path` (required field), but accepts an empty one: the request below
returns 200 with an id and persists an event whose `path` is the empty string. -/
theorem C1_empty_path_accepted :
    validateTrackEventIn { path := none, event := none, source := none } =
      .error "Field required: path" ∧
    (track_endpoint { path := some "", event := some "view", source := none }
        { xForwardedFor := none, userAgent := none, clientHost := none }
        { events := [], nextId := 1, fault := none }).1 = .ok "1" ∧
    ∃ d, (track_endpoint { path := some "", event := some "view", source := none }
        { xForwardedFor := none, userAgent := none, clientHost := none }
        { events := [], nextId := 1, fault := none }).2.events = [d] ∧
      Doc.get d "path" = some (.vStr "") := by
  exact ⟨rfl, rfl, ⟨_, rfl, rfl⟩⟩

/-- Claim C2 counterexample: with a non-null but empty `path` argument the built
filter omits the `path` key, so "includes `path` iff the argument is non-null"
fails as stated. -/
theorem C2_filter_counterexample :
    (some "" : Option String) ≠ none ∧ buildFilter (some "") none = [] := by
  exact ⟨by simp, rfl⟩

/-- Claim C2, amended: the filter includes `path` (with the given value) iff the
`path` argument is truthy — non-null and non-empty — includes `event` iff the
`event` argument is truthy, and contains no other keys. -/
theorem C2_filter_amended (path event : Option String) :
    (List.lookup "path" (buildFilter path event) =
      (if optTruthy path then path else none)) ∧
    (List.lookup "event" (buildFilter path event) =
      (if optTruthy event then event else none)) ∧
    ((buildFilter path event).all fun kv => kv.1 == "path" || kv.1 == "event") = true := by
  have hpe : (("path" : String) == "event") = false := by decide
  have hep : (("event" : String) == "path") = false := by decide
  cases path with
  | none =>
      cases event with
      | none => simp [buildFilter, optTruthy]
      | some e =>
          by_cases he : e.isEmpty <;>
            simp [buildFilter, optTruthy, he, List.lookup, hep]
  | some p =>
      cases event with
      | none =>
          by_cases hp : p.isEmpty <;>
            simp [buildFilter, optTruthy, hp, List.lookup, hpe]
      | some e =>
          by_cases hp : p.isEmpty <;> by_cases he : e.isEmpty <;>
            simp [buildFilter, optTruthy, hp, he, List.lookup, hpe, hep]

/-- Claim C9: for a fixed store state, repeating the same stats read with no
intervening writes yields the same records in the same order; the read itself
leaves the store untouched. -/
theorem C9_idempotent_read (s : Store) (path event : Option String) (limit : Int) :
    (runStats path event limit s).1 =
      (runStats path event limit (runStats path event limit s).2).1 ∧
    (runStats path event limit s).2 = s :=
  ⟨rfl, rfl⟩

/-- Claim C3: for every adapter state — store handle absent, name unresolvable,
collection listing failing, or any other exception in the body — the diagnostics
handler returns a well-formed report (never an error), its backend flag set, at
most 10 collection names, and a connection status drawn from the two labels. -/
theorem C3_health_never_fails (env : HealthEnv) :
    ∃ r : HealthReport, test_database env = .ok r ∧
      r.backend = "✅ Running" ∧
      r.collections.length ≤ 10 ∧
      (r.connection_status = "Not Connected" ∨ r.connection_status = "Connected") := by
  obtain ⟨db, url, unexpected⟩ := env
  cases unexpected with
  | some e =>
      exact ⟨{ initialReport with database := "❌ Error: " ++ e.take 80 },
        rfl, rfl, by simp [initialReport], Or.inl rfl⟩
  | none =>
      cases db with
      | none =>
          exact ⟨{ initialReport with database := "⚠️ Available but not initialized" },
            rfl, rfl, by simp [initialReport], Or.inl rfl⟩
      | some h =>
          obtain ⟨name, lc⟩ := h
          cases lc with
          | ok cols =>
              refine ⟨⟨"✅ Running", "✅ Connected & Working",
                some (if optTruthy url then "✅ Set" else "❌ Not Set"),
                some (orUnknown name), "Connected", cols.take 10⟩,
                rfl, rfl, ?_, Or.inr rfl⟩
              simp [List.length_take]
          | error e =>
              exact ⟨⟨"✅ Running", "⚠️ Connected but Error: " ++ e.take 80,
                some (if optTruthy url then "✅ Set" else "❌ Not Set"),
                some (orUnknown name), "Connected", []⟩,
                rfl, rfl, by simp, Or.inr rfl⟩

/-- Claim C4: for a validated request, the track handler inserts exactly one new
document into the event collection and returns the newly assigned identifier as
a string; on a storage failure it returns a single 500-style error carrying the
underlying message, with the store unchanged (no retry, no partial persist). -/
theorem C4_track_single_insert (payload : TrackEventIn) (req : RequestMeta)
    (s : Store) :
    (s.fault = none →
      ∃ d, track_event payload req s =
        (.ok (toString s.nextId), ⟨s.events ++ [d], s.nextId + 1, none⟩) ∧
        (s.events ++ [d]).length = s.events.length + 1) ∧
    (∀ m, s.fault = some m → track_event payload req s = (.serverError m, s)) := by
  obtain ⟨events, nextId, fault⟩ := s
  constructor
  · intro h
    subst h
    exact ⟨trackedDoc payload req nextId, rfl, by simp⟩
  · intro m h
    subst h
    rfl

/-- Claim C4 witness at a concrete request and store. -/
theorem C4_track_single_insert_witness :
    ∃ d, track_event ⟨"/home", "view", none⟩ ⟨none, none, none⟩ ⟨[], 5, none⟩ =
      (.ok (toString (5 : Nat)), ⟨[d], 6, none⟩) ∧
      ([d] : List Doc).length = 1 :=
  (C4_track_single_insert ⟨"/home", "view", none⟩ ⟨none, none, none⟩
    ⟨[], 5, none⟩).1 rfl

/-- Claim C5: whenever the track handler persists a record, its `user_agent` is
the User-Agent header value (null when absent) and its `ip` is the
X-Forwarded-For header value when present, otherwise the transport-level client
address, otherwise null. -/
theorem C5_metadata (payload : TrackEventIn) (req : RequestMeta) (s : Store)
    (id : String) (s2 : Store)
    (h : track_event payload req s = (.ok id, s2)) :
    ∃ d, s2.events = s.events ++ [d] ∧
      Doc.get d "user_agent" = some (optVal req.userAgent) ∧
      Doc.get d "ip" = some (optVal (match req.xForwardedFor with
        | some v => some v
        | none => req.clientHost)) := by
  obtain ⟨events, nextId, fault⟩ := s
  cases fault with
  | some m => simp [track_event, create_document] at h
  | none =>
      simp [track_event, create_document] at h
      obtain ⟨h1, h2⟩ := h
      subst h2
      refine ⟨trackedDoc payload req nextId, rfl, ?_, ?_⟩
      · cases hua : req.userAgent <;>
          simp [trackedDoc, TrafficEvent.toDoc, Doc.set, Doc.get, optVal, hua]
      · cases hx : req.xForwardedFor <;> cases hch : req.clientHost <;>
          simp [trackedDoc, TrafficEvent.toDoc, Doc.set, Doc.get, optVal, hx, hch]

/-- Claim C5 witness at a concrete request carrying both headers. -/
theorem C5_metadata_witness :
    ∃ d, (Store.mk [wDoc] 1 none).events = ([] : List Doc) ++ [d] ∧
      Doc.get d "user_agent" = some (.vStr "UA") ∧
      Doc.get d "ip" = some (.vStr "1.2.3.4") :=
  C5_metadata ⟨"/h", "view", none⟩ ⟨some "1.2.3.4", some "UA", some "9.9.9.9"⟩
    ⟨[], 0, none⟩ (toString (0 : Nat)) ⟨[wDoc], 1, none⟩ rfl

/-- Claim C6 counterexample: a document whose `created_at` is present but falsy
(the integer 0) is returned by normalization with that field unconverted — not
rendered as a string — so "when present, rendered as strings" fails as stated. -/
theorem C6_normalization_counterexample :
    Doc.get (normalizeDoc [("_id", .vId 7), ("created_at", .vInt 0)]) "created_at" =
      some (.vInt 0) ∧
    (Doc.getPy (normalizeDoc [("_id", .vId 7), ("created_at", .vInt 0)])
      "created_at").isStr = false := by
  exact ⟨rfl, rfl⟩

/-- Claim C6, amended: every returned record's identifier is rendered as a
string; `created_at` and `updated_at` are rendered as strings when present and
truthy (falsy values are left unchanged); and on any store-access failure the
operation returns a single 500-style error with the underlying message and no
partial results. -/
theorem C6_normalization (d : Doc) (v : Value) (path event : Option String)
    (limit : Int) (s : Store) (m : String) :
    (Doc.get (normalizeDoc d) "_id" = some (.vStr (Doc.getPy d "_id").pyStr)) ∧
    (Doc.get d "created_at" = some v → v.truthy = true →
      Doc.get (normalizeDoc d) "created_at" = some (.vStr v.pyStr)) ∧
    (Doc.get d "updated_at" = some v → v.truthy = true →
      Doc.get (normalizeDoc d) "updated_at" = some (.vStr v.pyStr)) ∧
    (s.fault = some m → get_stats path event limit s = .serverError m) := by
  refine ⟨?_, ?_, ?_, ?_⟩
  · unfold normalizeDoc
    rw [convert_get_of_ne _ _ _ (by decide), convert_get_of_ne _ _ _ (by decide)]
    exact doc_get_set_same _ _ _
  · intro hget hv
    unfold normalizeDoc
    rw [convert_get_of_ne _ _ _ (by decide)]
    exact convert_get_truthy _ _ v
      (by rw [doc_get_set_ne _ _ _ _ (by decide)]; exact hget) hv
  · intro hget hv
    unfold normalizeDoc
    exact convert_get_truthy _ _ v
      (by rw [convert_get_of_ne _ _ _ (by decide),
              doc_get_set_ne _ _ _ _ (by decide)]; exact hget) hv
  · intro hf
    obtain ⟨events, nextId, fault⟩ := s
    cases hf
    rfl

/-- Claim C6 witness at a concrete document and a faulted store. -/
theorem C6_normalization_witness :
    (Doc.get (normalizeDoc [("_id", .vId 1), ("created_at", .vStr "t"),
        ("updated_at", .vStr "t")]) "_id" =
      some (.vStr (Doc.getPy [("_id", Value.vId 1), ("created_at", .vStr "t"),
        ("updated_at", .vStr "t")] "_id").pyStr)) ∧
    (Doc.get (normalizeDoc [("_id", .vId 1), ("created_at", .vStr "t"),
        ("updated_at", .vStr "t")]) "created_at" =
      some (.vStr (Value.vStr "t").pyStr)) ∧
    (Doc.get (normalizeDoc [("_id", .vId 1), ("created_at", .vStr "t"),
        ("updated_at", .vStr "t")]) "updated_at" =
      some (.vStr (Value.vStr "t").pyStr)) ∧
    get_stats none none 50 ⟨[], 0, some "boom"⟩ = .serverError "boom" := by
  have h := C6_normalization
    [("_id", .vId 1), ("created_at", .vStr "t"), ("updated_at", .vStr "t")]
    (.vStr "t") none none 50 ⟨[], 0, some "boom"⟩ "boom"
  exact ⟨h.1, h.2.1 rfl rfl, h.2.2.1 rfl rfl, h.2.2.2 rfl⟩

/-- Claim C7: the stats endpoint uses limit 50 when the query parameter is
omitted; a successful read returns at most `limit` records; and the handler
itself imposes no ceiling — any requested nonnegative `limit` covered by the
store is returned in full. -/
theorem C7_limit (path event : Option String) (limit : Int) (s : Store) :
    (stats_endpoint path event none s = get_stats path event 50 s) ∧
    (∀ items, get_stats path event limit s = .ok items →
      items.length ≤ limit.toNat) ∧
    (s.fault = none →
      limit.toNat ≤ (s.events.filter (matchesFilter · (buildFilter path event))).length →
      ∃ items, get_stats path event limit s = .ok items ∧
        items.length = limit.toNat) := by
  obtain ⟨events, nextId, fault⟩ := s
  refine ⟨rfl, ?_, ?_⟩
  · intro items h
    cases fault with
    | some m => simp [get_stats, get_documents] at h
    | none =>
        simp [get_stats, get_documents] at h
        subst h
        simp [List.length_take]
  · intro hf hlen
    cases hf
    have hlen2 : limit.toNat ≤
        (events.filter (matchesFilter · (buildFilter path event))).length := hlen
    refine ⟨_, rfl, ?_⟩
    simp only [List.length_map, List.length_take]
    omega

/-- Claim C7 witness: limit 1 against a store of two matching events returns
exactly one record. -/
theorem C7_limit_witness :
    ∃ items, get_stats none none 1 statsStore = .ok items ∧
      items.length = (1 : Int).toNat :=
  (C7_limit none none 1 statsStore).2.2 rfl (by decide)

/-- Every single API call leaves the prior store contents intact, appending at
most one document. -/
theorem applyOp_extends (s : Store) (op : Op) :
    ∃ tail, (applyOp s op).events = s.events ++ tail := by
  cases op with
  | stats p e l => exact ⟨[], by simp [applyOp]⟩
  | health env => exact ⟨[], by simp [applyOp]⟩
  | track raw req =>
      cases hv : validateTrackEventIn raw with
      | error e => exact ⟨[], by simp [applyOp, track_endpoint, hv]⟩
      | ok payload =>
          obtain ⟨events, nextId, fault⟩ := s
          cases fault with
          | some m =>
              exact ⟨[], by
                simp [applyOp, track_endpoint, hv, track_event, create_document]⟩
          | none =>
              exact ⟨[trackedDoc payload req nextId], by
                simp [applyOp, track_endpoint, hv, track_event, create_document,
                  trackedDoc]⟩

/-- Claim C8: across any sequence of API calls, records already persisted are
never mutated or deleted — the store only ever grows by appending (append-only
log semantics): tracking only inserts, stats and diagnostics never write. -/
theorem C8_append_only (ops : List Op) (s : Store) :
    ∃ tail, (ops.foldl applyOp s).events = s.events ++ tail := by
  induction ops generalizing s with
  | nil => exact ⟨[], by simp⟩
  | cons op rest ih =>
      obtain ⟨t1, h1⟩ := applyOp_extends s op
      obtain ⟨t2, h2⟩ := ih (applyOp s op)
      exact ⟨t1 ++ t2, by simp [List.foldl, h2, h1]⟩

/-- Claim C10: a returned document lacking an `_id` field is normalized to the
literal string identifier "None" (not a failure, not null), and `created_at` or
`updated_at` fields holding falsy values are left unconverted. -/
theorem C10_missing_id_and_falsy (d : Doc) (v : Value) :
    (Doc.get d "_id" = none →
      Doc.get (normalizeDoc d) "_id" = some (.vStr "None")) ∧
    (Doc.get d "created_at" = some v → v.truthy = false →
      Doc.get (normalizeDoc d) "created_at" = some v) ∧
    (Doc.get d "updated_at" = some v → v.truthy = false →
      Doc.get (normalizeDoc d) "updated_at" = some v) := by
  refine ⟨?_, ?_, ?_⟩
  · intro hid
    unfold normalizeDoc
    rw [convert_get_of_ne _ _ _ (by decide), convert_get_of_ne _ _ _ (by decide),
      doc_get_set_same]
    simp [Doc.getPy, hid, Value.pyStr]
  · intro hget hv
    unfold normalizeDoc
    rw [convert_get_of_ne _ _ _ (by decide)]
    have hbase : Doc.get (Doc.set d "_id" (.vStr (Doc.getPy d "_id").pyStr))
        "created_at" = some v := by
      rw [doc_get_set_ne _ _ _ _ (by decide)]; exact hget
    rw [convert_get_falsy _ _ (by rw [doc_getPy_eq _ _ _ hbase]; exact hv), hbase]
  · intro hget hv
    unfold normalizeDoc
    have hbase : Doc.get (convertField
        (Doc.set d "_id" (.vStr (Doc.getPy d "_id").pyStr)) "created_at")
        "updated_at" = some v := by
      rw [convert_get_of_ne _ _ _ (by decide),
        doc_get_set_ne _ _ _ _ (by decide)]
      exact hget
    rw [convert_get_falsy _ _ (by rw [doc_getPy_eq _ _ _ hbase]; exact hv), hbase]

/-- Claim C10 witness: a document with no `_id` and falsy timestamps. -/
theorem C10_missing_id_and_falsy_witness :
    Doc.get (normalizeDoc [("created_at", Value.vInt 0), ("updated_at", Value.vInt 0)])
      "_id" = some (.vStr "None") ∧
    Doc.get (normalizeDoc [("created_at", Value.vInt 0), ("updated_at", Value.vInt 0)])
      "created_at" = some (.vInt 0) ∧
    Doc.get (normalizeDoc [("created_at", Value.vInt 0), ("updated_at", Value.vInt 0)])
      "updated_at" = some (.vInt 0) := by
  have h := C10_missing_id_and_falsy
    [("created_at", Value.vInt 0), ("updated_at", Value.vInt 0)] (.vInt 0)
  exact ⟨h.1 rfl, h.2.1 rfl rfl, h.2.2 rfl rfl⟩

end Traffic
